import Mathlib

/-!
Shallow embedding of the conversation core of `src/Lab_5/main.py`:
the citation formatter `create_sources_string`, the top-level ask flow
(answer/context extraction, defensive coercion, history appends), the
display loop, and the clear-history reset.  Python dynamic values are
modelled by `PyVal`, backend context items by `CtxItem`, and exceptions
by `Except String`.
-/

/-- Python dynamic values, restricted to the shapes the ask flow can see:
strings, integers, `None` and (nested) lists.  This is the value space of
the `answer` field of a backend response and of entries stored in the
session-state history lists. -/
inductive PyVal where
  | str (s : String)
  | int (n : Int)
  | none
  | list (xs : List PyVal)

mutual

/-- Python `repr` on `PyVal`, as used by `str()` on non-string values
(`str` of a list shows the `repr` of its elements). -/
def pyRepr : PyVal → String
  | .str s => "\x27" ++ s ++ "\x27"
  | .int n => toString n
  | .none => "None"
  | .list xs => "[" ++ String.intercalate ", " (pyReprList xs) ++ "]"

/-- `pyRepr` mapped over a list of values. -/
def pyReprList : List PyVal → List String
  | [] => []
  | x :: xs => pyRepr x :: pyReprList xs

end

/-- Python `str()` coercion: the identity on strings, `repr`-style
rendering otherwise.  Models `answer = str(answer)` in `main.py`
line 117. -/
def pyStr : PyVal → String
  | .str s => s
  | v => pyRepr v

/-- Python `str(type(v))`, as interpolated by the f-string in the
display loop of `main.py` line 143. -/
def pyType : PyVal → String
  | .str _ => "<class \x27str\x27>"
  | .int _ => "<class \x27int\x27>"
  | .none => "<class \x27NoneType\x27>"
  | .list _ => "<class \x27list\x27>"

/-- A backend context item as consumed by `main.py` line 119
(`doc.metadata.get("source", "Unknown")`).  A well-formed item (`doc`)
carries a `metadata` string-to-string mapping; `invalid v` models an
object without a `metadata` attribute, on which the attribute access
raises `AttributeError`. -/
inductive CtxItem where
  | doc (metadata : List (String × String))
  | invalid (v : PyVal)

/-- `doc.metadata.get("source", "Unknown")` for one context item;
an item without a `metadata` attribute raises. -/
def getSourceOfItem : CtxItem → Except String String
  | .doc metadata => .ok ((metadata.lookup "source").getD "Unknown")
  | .invalid v => .error ("AttributeError: " ++ pyType v ++ " object has no attribute \x27metadata\x27")

/-- Deduplication performed by Python `set(...)`: keeps one copy of each
element (the representation order is irrelevant downstream because the
formatter sorts). -/
def pySet : List String → List String
  | [] => []
  | x :: xs =>
    let r := pySet xs
    if x ∈ r then r else x :: r

/-- The generator `set(doc.metadata.get("source", "Unknown") for doc in context)`
from `main.py` line 119: extract each item's source in order (propagating the
first exception), then apply set semantics. -/
def collectSources : List CtxItem → Except String (List String)
  | [] => .ok []
  | it :: rest =>
    match getSourceOfItem it with
    | .error e => .error e
    | .ok s =>
      match collectSources rest with
      | .error e => .error e
      | .ok l => .ok (s :: l)

/-- Sources derived from a context list: per-item extraction followed by
set-based deduplication. -/
def extractSources (context : List CtxItem) : Except String (List String) :=
  match collectSources context with
  | .error e => .error e
  | .ok l => .ok (pySet l)

/-- `create_sources_string` from `main.py` lines 22-27: empty set gives
the empty string; otherwise the sorted identifiers are numbered from 1
and joined under a `"sources:"` header.  The set argument is modelled as
its iteration order, a duplicate-free list. -/
def create_sources_string (source_urls : List String) : String :=
  if source_urls = [] then ""
  else
    let sources_list := List.insertionSort (· ≤ ·) source_urls
    "sources:\n" ++ String.intercalate "\n"
      ((sources_list.enum).map (fun p => toString (p.1 + 1) ++ ". " ++ p.2))

/-- The fallback answer of `main.py` line 112. -/
def fallbackAnswer : String := "Sorry, I couldn\x27t generate a response."

/-- A backend response as consumed by the ask flow: only the `answer`
and `context` keys are read (`response_dict.get`), each possibly
absent. -/
structure RunLLMResponse where
  answer : Option PyVal
  context : Option (List CtxItem)

/-- The three session-state logs of `main.py` lines 89-96 after
initialization.  The two display logs hold `PyVal` because the display
loop defends against non-string entries. -/
structure SessionState where
  user_prompt_history : List PyVal
  chat_answers_history : List PyVal
  chat_history : List (String × String)

/-- The raw `st.session_state` before the initialization block: each of
the three keys may be missing. -/
structure RawSession where
  chat_answers_history : Option (List PyVal)
  user_prompt_history : Option (List PyVal)
  chat_history : Option (List (String × String))

/-- The session-state initialization block of `main.py` lines 89-96:
each missing key is set to the empty list. -/
def init_session (r : RawSession) : SessionState :=
  { chat_answers_history := r.chat_answers_history.getD []
    user_prompt_history := r.user_prompt_history.getD []
    chat_history := r.chat_history.getD [] }

/-- A fresh `st.session_state` with none of the three keys present. -/
def freshSession : RawSession := ⟨Option.none, Option.none, Option.none⟩

/-- The session state at construction (first page load). -/
def initState : SessionState := init_session freshSession

/-- `st.session_state.clear()` from the Clear Chat History button
(`main.py` line 85): every key is removed. -/
def clear_session (_ : RawSession) : RawSession := freshSession

/-- The reset operation: `st.session_state.clear()` followed by
`st.rerun()`, whose next run re-executes the initialization block. -/
def reset_session (r : RawSession) : SessionState :=
  init_session (clear_session r)

/-- One ask exchange, `main.py` lines 104-126, parametrized by the
backend response: extract `answer` (fallback when absent) and `context`
(empty when absent), coerce the answer to a string, derive the
deduplicated source set (which may raise on a malformed item), format
the displayed answer, and append to the three logs. -/
def ask_step (state : SessionState) (prompt : String) (resp : RunLLMResponse) :
    Except String SessionState :=
  let answer0 : PyVal := resp.answer.getD (.str fallbackAnswer)
  let context : List CtxItem := resp.context.getD []
  let answer : String := pyStr answer0
  match extractSources context with
  | .error e => .error e
  | .ok sources =>
    let formatted_response := answer ++ "\n\n" ++ create_sources_string sources
    .ok { user_prompt_history := state.user_prompt_history ++ [.str prompt]
          chat_answers_history := state.chat_answers_history ++ [.str formatted_response]
          chat_history := state.chat_history ++ [("human", prompt), ("ai", answer)] }

/-- A sequence of ask exchanges, stopping at the first exception. -/
def run_asks (state : SessionState) : List (String × RunLLMResponse) → Except String SessionState
  | [] => .ok state
  | (q, r) :: rest =>
    match ask_step state q r with
    | .error e => .error e
    | .ok s2 => run_asks s2 rest

/-- A message emitted to the rendering sink by the display loop:
either a chat-bubble write or an error marker. -/
inductive ChatMsg where
  | write (role : String) (v : PyVal)
  | error (role : String) (text : String)

/-- The error-marker text of `main.py` line 143. -/
def invalidFormatMsg (v : PyVal) : String :=
  "Invalid response format found in history: " ++ pyType v

/-- The assistant-side message for one stored answer: written verbatim
when it is a string, replaced by an error marker otherwise
(`main.py` lines 139-144). -/
def answerMsg : PyVal → ChatMsg
  | .str t => .write "assistant" (.str t)
  | v => .error "assistant" (invalidFormatMsg v)

/-- The two messages emitted for one `(user_query, generated_response)`
pair of the display loop. -/
def renderPair (p : PyVal × PyVal) : List ChatMsg :=
  [ChatMsg.write "user" p.1, answerMsg p.2]

/-- The display loop of `main.py` lines 130-144: skipped when the
Answer Log is empty (falsy), otherwise replays the positional zip of
the two display logs. -/
def render (s : SessionState) : List ChatMsg :=
  if s.chat_answers_history.isEmpty then []
  else (s.user_prompt_history.zip s.chat_answers_history).flatMap renderPair

/-! ## Helper lemmas -/

/-- A string starting with the citation header is never empty. -/
theorem sources_header_ne_empty (s : String) : "sources:\n" ++ s ≠ "" := by
  intro h
  have h2 := congrArg String.length h
  rw [String.length_append] at h2
  simp at h2
  exact absurd h2.1 (by decide)

/-- Characterization of a successful ask exchange: the source set was
extracted without an exception, and each log receives exactly its new
entry. -/
theorem ask_step_ok {s s2 : SessionState} {q : String} {r : RunLLMResponse}
    (h : ask_step s q r = Except.ok s2) :
    ∃ sources, extractSources (r.context.getD []) = Except.ok sources ∧
      s2 = { user_prompt_history := s.user_prompt_history ++ [.str q]
             chat_answers_history := s.chat_answers_history ++
               [.str (pyStr (r.answer.getD (.str fallbackAnswer)) ++ "\n\n" ++
                 create_sources_string sources)]
             chat_history := s.chat_history ++
               [("human", q), ("ai", pyStr (r.answer.getD (.str fallbackAnswer)))] } := by
  simp only [ask_step] at h
  cases he : extractSources (r.context.getD []) with
  | error e => rw [he] at h; simp at h
  | ok sources =>
    rw [he] at h
    refine ⟨sources, rfl, ?_⟩
    injection h with h2
    exact h2.symm

/-- Source collection succeeds on any context whose items all carry a
metadata mapping. -/
theorem collectSources_ok (ctx : List CtxItem)
    (h : ∀ it ∈ ctx, ∃ md, it = CtxItem.doc md) :
    ∃ l, collectSources ctx = Except.ok l := by
  induction ctx with
  | nil => exact ⟨[], rfl⟩
  | cons a t ih =>
    obtain ⟨md, rfl⟩ := h a (List.mem_cons_self a t)
    obtain ⟨l, hl⟩ := ih (fun it hit => h it (List.mem_cons_of_mem _ hit))
    exact ⟨((md.lookup "source").getD "Unknown") :: l, by
      simp [collectSources, getSourceOfItem, hl]⟩

/-- The three log-length invariants are preserved by any successful run
of ask exchanges, from any state satisfying them. -/
theorem run_asks_lengths (steps : List (String × RunLLMResponse)) :
    ∀ s s2, run_asks s steps = Except.ok s2 →
      s.user_prompt_history.length = s.chat_answers_history.length →
      s.chat_history.length = 2 * s.user_prompt_history.length →
      (s2.user_prompt_history.length = s2.chat_answers_history.length ∧
       s2.chat_history.length = 2 * s2.user_prompt_history.length) := by
  induction steps with
  | nil =>
    intro s s2 h h1 h2
    simp [run_asks] at h
    rw [← h]
    exact ⟨h1, h2⟩
  | cons p rest ih =>
    intro s s2 h h1 h2
    obtain ⟨q, r⟩ := p
    rw [run_asks] at h
    cases ha : ask_step s q r with
    | error e => rw [ha] at h; simp at h
    | ok s1 =>
      rw [ha] at h
      obtain ⟨src, hsrc, rfl⟩ := ask_step_ok ha
      refine ih _ _ h ?_ ?_
      · simp [h1]
      · simp [h2]; omega

/-- The display loop emits exactly two messages per zipped pair. -/
theorem length_renderPairs (l : List (PyVal × PyVal)) :
    (l.flatMap renderPair).length = 2 * l.length := by
  induction l with
  | nil => rfl
  | cons p t ih =>
    simp [List.flatMap_cons, renderPair, ih, Nat.mul_succ]

/-- Positional description of the display-loop output: the messages for
pair `i` sit at offsets `2 * i` and `2 * i + 1`. -/
theorem renderPairs_get (l : List (PyVal × PyVal)) :
    ∀ i (hi : i < l.length),
      (l.flatMap renderPair)[2 * i]? = some (ChatMsg.write "user" (l.get ⟨i, hi⟩).1) ∧
      (l.flatMap renderPair)[2 * i + 1]? = some (answerMsg (l.get ⟨i, hi⟩).2) := by
  induction l with
  | nil => intro i hi; exact absurd hi (Nat.not_lt_zero i)
  | cons p t ih =>
    intro i hi
    cases i with
    | zero =>
      refine ⟨?_, ?_⟩ <;> simp [List.flatMap_cons, renderPair]
    | succ j =>
      have hj : j < t.length := Nat.lt_of_succ_lt_succ hi
      obtain ⟨ih1, ih2⟩ := ih j hj
      have e2 : 2 * (j + 1) = 2 * j + 1 + 1 := by omega
      constructor
      · rw [e2, List.flatMap_cons]
        show (ChatMsg.write "user" p.1 :: answerMsg p.2 :: t.flatMap renderPair)[2 * j + 1 + 1]? = _
        rw [List.getElem?_cons_succ, List.getElem?_cons_succ]
        exact ih1
      · rw [e2, List.flatMap_cons]
        show (ChatMsg.write "user" p.1 :: answerMsg p.2 :: t.flatMap renderPair)[2 * j + 1 + 1 + 1]? = _
        rw [List.getElem?_cons_succ, List.getElem?_cons_succ]
        exact ih2

/-- With at least one zipped pair, the emptiness guard of the display
loop does not fire. -/
theorem render_eq_flatMap (s : SessionState)
    (h : (s.user_prompt_history.zip s.chat_answers_history).length ≠ 0) :
    render s = (s.user_prompt_history.zip s.chat_answers_history).flatMap renderPair := by
  rw [render]
  rw [if_neg]
  intro he
  rw [List.isEmpty_iff] at he
  rw [List.length_zip, he] at h
  simp at h

/-! ## Claim theorems -/

/-- C1: one ask step on the query "What is a chain?" with backend answer
"A chain links calls." and context citing docs/a twice and docs/b once
appends exactly "A chain links calls.\n\nsources:\n1. docs/a\n2. docs/b"
to the Answer Log: the duplicate source is removed by set semantics and
the displayed answer is the answer text, a blank line, then the citation
block. -/
theorem ask_scenario_dedup_citations (s : SessionState) :
    ask_step s "What is a chain?"
      ⟨some (.str "A chain links calls."),
       some [.doc [("source", "docs/a")], .doc [("source", "docs/a")],
             .doc [("source", "docs/b")]]⟩ =
    Except.ok
      { user_prompt_history := s.user_prompt_history ++ [.str "What is a chain?"]
        chat_answers_history := s.chat_answers_history ++
          [.str "A chain links calls.\n\nsources:\n1. docs/a\n2. docs/b"]
        chat_history := s.chat_history ++
          [("human", "What is a chain?"), ("ai", "A chain links calls.")] } := by
  simp [ask_step, extractSources, collectSources, getSourceOfItem, pySet, pyStr,
    create_sources_string, List.insertionSort, List.orderedInsert]
  decide

/-- C2 counterexample: a context item without a metadata mapping makes
the ask step raise an AttributeError instead of degrading the citation
list to empty, refuting the claim that ask never raises on a malformed
context field. -/
theorem ask_raises_on_malformed_item :
    ask_step initState "q" ⟨some (PyVal.str "a"), some [CtxItem.invalid PyVal.none]⟩ =
      Except.error "AttributeError: <class \x27NoneType\x27> object has no attribute \x27metadata\x27" :=
  rfl

/-- C2 (amended): an absent context field is treated exactly as the
empty sequence and yields an empty citation block, and a context item
whose metadata lacks a source identifier contributes the sentinel
"Unknown"; but a context item without a metadata mapping makes the ask
step raise rather than degrade to an empty citation list. -/
theorem ask_context_handling (s : SessionState) (prompt : String) (ans : Option PyVal)
    (md : List (String × String)) (hmd : md.lookup "source" = Option.none) :
    ask_step s prompt ⟨ans, Option.none⟩ = ask_step s prompt ⟨ans, some []⟩ ∧
    (∃ s2, ask_step s prompt ⟨ans, Option.none⟩ = Except.ok s2 ∧
      s2.chat_answers_history = s.chat_answers_history ++
        [PyVal.str (pyStr (ans.getD (PyVal.str fallbackAnswer)) ++ "\n\n")]) ∧
    getSourceOfItem (CtxItem.doc md) = Except.ok "Unknown" ∧
    (∀ v, (ask_step s prompt ⟨ans, some [CtxItem.invalid v]⟩).isOk = false) := by
  refine ⟨rfl, ⟨_, rfl, ?_⟩, ?_, ?_⟩
  · show s.chat_answers_history ++
      [PyVal.str (pyStr (ans.getD (PyVal.str fallbackAnswer)) ++ "\n\n" ++
        create_sources_string [])] = _
    rw [create_sources_string]
    simp [String.append_empty]
  · simp [getSourceOfItem, hmd]
  · intro v
    rfl

/-- C2 witness: the amended context handling instantiated at a concrete
state, answer, and source-free metadata mapping. -/
theorem ask_context_handling_witness :
    ask_step initState "hi" ⟨some (PyVal.str "hello"), Option.none⟩ =
        ask_step initState "hi" ⟨some (PyVal.str "hello"), some []⟩ ∧
    (∃ s2, ask_step initState "hi" ⟨some (PyVal.str "hello"), Option.none⟩ = Except.ok s2 ∧
      s2.chat_answers_history = initState.chat_answers_history ++
        [PyVal.str (pyStr ((some (PyVal.str "hello")).getD (PyVal.str fallbackAnswer)) ++
          "\n\n")]) ∧
    getSourceOfItem (CtxItem.doc [("page", "3")]) = Except.ok "Unknown" ∧
    (∀ v, (ask_step initState "hi"
      ⟨some (PyVal.str "hello"), some [CtxItem.invalid v]⟩).isOk = false) :=
  ask_context_handling initState "hi" (some (PyVal.str "hello")) [("page", "3")] rfl

/-- C3: on any backend response whose context items all carry a metadata
mapping, the ask step never raises regardless of the answer field: an
absent answer is replaced by the fixed fallback string, any non-string
answer is coerced by str(), and the Answer Log entry is always a
string. -/
theorem ask_answer_defensive (s : SessionState) (prompt : String) (resp : RunLLMResponse)
    (hctx : ∀ it ∈ resp.context.getD [], ∃ md, it = CtxItem.doc md) :
    ∃ s2, ask_step s prompt resp = Except.ok s2 ∧
      ∃ cite, s2.chat_answers_history = s.chat_answers_history ++
          [PyVal.str (pyStr (resp.answer.getD (PyVal.str fallbackAnswer)) ++ "\n\n" ++ cite)] ∧
        (resp.answer = Option.none →
          s2.chat_answers_history = s.chat_answers_history ++
            [PyVal.str (fallbackAnswer ++ "\n\n" ++ cite)]) := by
  obtain ⟨l, hl⟩ := collectSources_ok _ hctx
  have hes : extractSources (resp.context.getD []) = Except.ok (pySet l) := by
    simp [extractSources, hl]
  refine ⟨_, by rw [ask_step, hes], create_sources_string (pySet l), rfl, ?_⟩
  intro hnone
  rw [hnone]
  rfl

/-- C3 witness: a numeric answer with a well-formed single-item context;
the stored entry is the string coercion of the number. -/
theorem ask_answer_defensive_witness :
    ∃ s2, ask_step initState "q"
        ⟨some (PyVal.int 42), some [CtxItem.doc [("source", "docs/a")]]⟩ = Except.ok s2 ∧
      ∃ cite, s2.chat_answers_history = initState.chat_answers_history ++
          [PyVal.str (pyStr ((some (PyVal.int 42)).getD (PyVal.str fallbackAnswer)) ++
            "\n\n" ++ cite)] ∧
        ((some (PyVal.int 42) : Option PyVal) = Option.none →
          s2.chat_answers_history = initState.chat_answers_history ++
            [PyVal.str (fallbackAnswer ++ "\n\n" ++ cite)]) :=
  ask_answer_defensive initState "q"
    ⟨some (PyVal.int 42), some [CtxItem.doc [("source", "docs/a")]]⟩
    (fun it hit => ⟨[("source", "docs/a")], by simpa using hit⟩)

/-- C4: after any successful sequence of ask exchanges from the initial
empty session state, the Prompt Log and Answer Log have equal length and
the Turn History is exactly twice as long. -/
theorem history_length_invariant (steps : List (String × RunLLMResponse)) (s2 : SessionState)
    (h : run_asks initState steps = Except.ok s2) :
    s2.user_prompt_history.length = s2.chat_answers_history.length ∧
    s2.chat_history.length = 2 * s2.user_prompt_history.length :=
  run_asks_lengths steps initState s2 h rfl rfl

/-- C4 witness: the invariant instantiated after one concrete
exchange. -/
theorem history_length_invariant_witness :
    (SessionState.mk [PyVal.str "hi"] [PyVal.str "hello\n\n"]
        [("human", "hi"), ("ai", "hello")]).user_prompt_history.length =
      (SessionState.mk [PyVal.str "hi"] [PyVal.str "hello\n\n"]
        [("human", "hi"), ("ai", "hello")]).chat_answers_history.length ∧
    (SessionState.mk [PyVal.str "hi"] [PyVal.str "hello\n\n"]
        [("human", "hi"), ("ai", "hello")]).chat_history.length =
      2 * (SessionState.mk [PyVal.str "hi"] [PyVal.str "hello\n\n"]
        [("human", "hi"), ("ai", "hello")]).user_prompt_history.length :=
  history_length_invariant [("hi", ⟨some (PyVal.str "hello"), some []⟩)]
    (SessionState.mk [PyVal.str "hi"] [PyVal.str "hello\n\n"]
      [("human", "hi"), ("ai", "hello")]) rfl

/-- C5: two successful ask exchanges from the initial state leave the
Turn History exactly [(human, q1), (ai, a1), (human, q2), (ai, a2)], in
order, where each ai entry is the coerced clean answer text (with the
fallback substituted for an absent answer), not the formatted display
string. -/
theorem history_pairs (q1 q2 : String) (r1 r2 : RunLLMResponse) (s1 s2 : SessionState)
    (h1 : ask_step initState q1 r1 = Except.ok s1)
    (h2 : ask_step s1 q2 r2 = Except.ok s2) :
    s2.chat_history =
      [("human", q1), ("ai", pyStr (r1.answer.getD (PyVal.str fallbackAnswer))),
       ("human", q2), ("ai", pyStr (r2.answer.getD (PyVal.str fallbackAnswer)))] := by
  obtain ⟨l1, hl1, rfl⟩ := ask_step_ok h1
  obtain ⟨l2, hl2, rfl⟩ := ask_step_ok h2
  simp [initState, init_session, freshSession]

/-- C5 witness: two concrete exchanges, the second with an absent
answer, producing the four-entry Turn History. -/
theorem history_pairs_witness :
    (SessionState.mk [PyVal.str "a", PyVal.str "b"]
        [PyVal.str "x\n\n", PyVal.str (fallbackAnswer ++ "\n\n")]
        [("human", "a"), ("ai", "x"), ("human", "b"), ("ai", fallbackAnswer)]).chat_history =
      [("human", "a"), ("ai", pyStr ((some (PyVal.str "x")).getD (PyVal.str fallbackAnswer))),
       ("human", "b"),
       ("ai", pyStr ((Option.none : Option PyVal).getD (PyVal.str fallbackAnswer)))] :=
  history_pairs "a" "b" ⟨some (PyVal.str "x"), Option.none⟩ ⟨Option.none, Option.none⟩
    (SessionState.mk [PyVal.str "a"] [PyVal.str "x\n\n"] [("human", "a"), ("ai", "x")])
    (SessionState.mk [PyVal.str "a", PyVal.str "b"]
      [PyVal.str "x\n\n", PyVal.str (fallbackAnswer ++ "\n\n")]
      [("human", "a"), ("ai", "x"), ("human", "b"), ("ai", fallbackAnswer)])
    rfl rfl

/-- C6: for every set of source identifiers (a duplicate-free list),
create_sources_string is empty iff the set is empty; for a non-empty set
it is the literal "sources:" header line followed by one line per
identifier of the form "n. identifier", with the identifiers in strictly
ascending lexicographic order and numbered 1, 2, 3, ... with no gaps. -/
theorem create_sources_string_spec (l : List String) (h : l.Nodup) :
    (create_sources_string l = "" ↔ l = []) ∧
    (l ≠ [] → ∃ sl : List String, sl.Perm l ∧ List.Sorted (· < ·) sl ∧
      create_sources_string l =
        "sources:\n" ++ String.intercalate "\n"
          ((sl.enum).map (fun p => toString (p.1 + 1) ++ ". " ++ p.2))) := by
  constructor
  · constructor
    · intro he
      by_contra hne
      rw [create_sources_string, if_neg hne] at he
      exact sources_header_ne_empty _ he
    · intro he; rw [create_sources_string, if_pos he]
  · intro hne
    refine ⟨List.insertionSort (· ≤ ·) l, List.perm_insertionSort _ l, ?_, ?_⟩
    · exact List.Sorted.lt_of_le (List.sorted_insertionSort _ l)
        ((List.perm_insertionSort _ l).symm.nodup h)
    · rw [create_sources_string, if_neg hne]

/-- C6 witness: the formatter specification instantiated at the two-URL
set iterated as docs/b then docs/a. -/
theorem create_sources_string_spec_witness :
    (create_sources_string ["docs/b", "docs/a"] = "" ↔
      ["docs/b", "docs/a"] = ([] : List String)) ∧
    ((["docs/b", "docs/a"] : List String) ≠ [] → ∃ sl : List String,
      sl.Perm ["docs/b", "docs/a"] ∧ List.Sorted (· < ·) sl ∧
      create_sources_string ["docs/b", "docs/a"] =
        "sources:\n" ++ String.intercalate "\n"
          ((sl.enum).map (fun p => toString (p.1 + 1) ++ ". " ++ p.2))) :=
  create_sources_string_spec ["docs/b", "docs/a"] (by decide)

/-- C7: create_sources_string is determined by the element set alone:
two duplicate-free inputs with the same members produce the same
citation string, whatever their iteration order. -/
theorem create_sources_string_set_determined (l1 l2 : List String)
    (h1 : l1.Nodup) (h2 : l2.Nodup) (h : ∀ x, x ∈ l1 ↔ x ∈ l2) :
    create_sources_string l1 = create_sources_string l2 := by
  have hp : l1.Perm l2 := (List.perm_ext_iff_of_nodup h1 h2).2 h
  have hs : List.insertionSort (· ≤ ·) l1 = List.insertionSort (· ≤ ·) l2 :=
    List.eq_of_perm_of_sorted
      (((List.perm_insertionSort _ l1).trans hp).trans (List.perm_insertionSort _ l2).symm)
      (List.sorted_insertionSort _ l1) (List.sorted_insertionSort _ l2)
  by_cases he : l1 = []
  · subst he
    have he2 : l2 = [] := hp.symm.eq_nil
    rw [he2]
  · have he2 : l2 ≠ [] := fun hh => he (by rw [hh] at hp; exact hp.eq_nil)
    rw [create_sources_string, create_sources_string, if_neg he, if_neg he2, hs]

/-- C7 witness: the two iteration orders of the set with elements a and
b format identically. -/
theorem create_sources_string_set_determined_witness :
    create_sources_string ["a", "b"] = create_sources_string ["b", "a"] :=
  create_sources_string_set_determined ["a", "b"] ["b", "a"] (by decide) (by decide)
    (by intro x; constructor <;>
      (intro hx; simp only [List.mem_cons, List.not_mem_nil, or_false] at hx ⊢; tauto))

/-- C8: the display loop pairs the two logs positionally (two messages
per pair, never raising), and for every pair whose stored answer is not
a string it emits an error marker naming the invalid type in place of
the answer bubble. -/
theorem render_marks_nonstring_answers (s : SessionState) (i : Nat)
    (hi : i < (s.user_prompt_history.zip s.chat_answers_history).length)
    (hna : ∀ t, ((s.user_prompt_history.zip s.chat_answers_history).get ⟨i, hi⟩).2 ≠
      PyVal.str t) :
    (render s).length = 2 * (s.user_prompt_history.zip s.chat_answers_history).length ∧
    (render s)[2 * i]? =
      some (ChatMsg.write "user"
        ((s.user_prompt_history.zip s.chat_answers_history).get ⟨i, hi⟩).1) ∧
    (render s)[2 * i + 1]? =
      some (ChatMsg.error "assistant"
        (invalidFormatMsg ((s.user_prompt_history.zip s.chat_answers_history).get ⟨i, hi⟩).2)) := by
  have hne : (s.user_prompt_history.zip s.chat_answers_history).length ≠ 0 :=
    fun h0 => absurd hi (by rw [h0]; exact Nat.not_lt_zero i)
  rw [render_eq_flatMap s hne]
  obtain ⟨g1, g2⟩ := renderPairs_get (s.user_prompt_history.zip s.chat_answers_history) i hi
  refine ⟨length_renderPairs _, g1, ?_⟩
  rw [g2]
  cases ha : ((s.user_prompt_history.zip s.chat_answers_history).get ⟨i, hi⟩).2 with
  | str t => exact absurd ha (hna t)
  | int n => rfl
  | none => rfl
  | list xs => rfl

/-- C8 witness: a history holding the non-string answer 5 renders as a
user bubble followed by an error marker naming the int type. -/
theorem render_marks_nonstring_answers_witness :
    (render (SessionState.mk [PyVal.str "q"] [PyVal.int 5] [])).length = 2 ∧
    (render (SessionState.mk [PyVal.str "q"] [PyVal.int 5] []))[0]? =
      some (ChatMsg.write "user" (PyVal.str "q")) ∧
    (render (SessionState.mk [PyVal.str "q"] [PyVal.int 5] []))[1]? =
      some (ChatMsg.error "assistant" (invalidFormatMsg (PyVal.int 5))) :=
  render_marks_nonstring_answers (SessionState.mk [PyVal.str "q"] [PyVal.int 5] []) 0
    (by decide) (fun t h => PyVal.noConfusion h)

/-- C9: the reset operation, from any reachable raw session state, leaves
all three logs empty and produces exactly the state the session had at
construction; the clearing is of the whole state at once, never
partial. -/
theorem reset_clears (r : RawSession) :
    reset_session r = initState ∧
    (reset_session r).user_prompt_history = [] ∧
    (reset_session r).chat_answers_history = [] ∧
    (reset_session r).chat_history = [] :=
  ⟨rfl, rfl, rfl, rfl⟩

/-- C10: the display loop's defensive substitution applies only to the
answer side: a Prompt Log entry that is not a string is still passed to
the rendering sink verbatim as a user write, with no error marker and no
exception. -/
theorem render_passes_queries_verbatim (s : SessionState) (i : Nat)
    (hi : i < (s.user_prompt_history.zip s.chat_answers_history).length)
    (_hq : ∀ t, ((s.user_prompt_history.zip s.chat_answers_history).get ⟨i, hi⟩).1 ≠
      PyVal.str t) :
    (render s)[2 * i]? =
      some (ChatMsg.write "user"
        ((s.user_prompt_history.zip s.chat_answers_history).get ⟨i, hi⟩).1) := by
  have hne : (s.user_prompt_history.zip s.chat_answers_history).length ≠ 0 :=
    fun h0 => absurd hi (by rw [h0]; exact Nat.not_lt_zero i)
  rw [render_eq_flatMap s hne]
  exact (renderPairs_get _ i hi).1

/-- C10 witness: a history whose stored query is the integer 7 still
renders the query verbatim as a user write. -/
theorem render_passes_queries_verbatim_witness :
    (render (SessionState.mk [PyVal.int 7] [PyVal.str "fine"] []))[0]? =
      some (ChatMsg.write "user" (PyVal.int 7)) :=
  render_passes_queries_verbatim (SessionState.mk [PyVal.int 7] [PyVal.str "fine"] []) 0
    (by decide) (fun t h => PyVal.noConfusion h)
